import Mathlib

/-!
# Formal model of the XDbit chatbot core (`src/app.py`)

This file is a shallow embedding, in Lean 4, of the algorithmic core of the
XDbit Flask chatbot:

* the Python string primitives the code uses (modelled character-exactly on
  `List Char`);
* the NLP preprocessing pipeline (`preprocess`, i.e. NLTK `word_tokenize`,
  stop-word removal and WordNet lemmatization) and scikit-learn
  `TfidfVectorizer` (fit on the raw knowledge-base questions, smooth idf
  `log((1+n)/(1+df)) + 1`, raw term-frequency, l2 normalization, cosine
  similarity as dot product of l2-normalized vectors);
* the similarity matcher `custom_semantic_match` (arg-max, strict `> 0.6`
  threshold, dynamic/static answers);
* the rate-limited fetcher `rate_limited_get_url_content`:
  the `@ratelimit.limits(calls=10, period=60)` decorator (PyPI `ratelimit`
  package semantics: a fixed window anchored at the last reset; a call beyond
  the quota raises `RateLimitException`), the 1-second minimum-spacing sleep
  on the shared `last_request_time` cell, the HTTP-status check, the
  "Disallow" heuristic, and the HTML-to-text post-processing;
* the router `generate_response`.

Modelling conventions:

* Time is `ℚ` (time-units = seconds).  Execution is idealized as
  instantaneous except for explicit sleeps, so the completion time of a call
  that sleeps is exactly `last_request_time + 1`.
* Float arithmetic of the Python code is modelled as exact real arithmetic.
* The network, the HTML extractor (`BeautifulSoup(...)`, `soup.get_text()`
  with `<script>`/`<style>` removal) and NLTK's Punkt sentence tokenizer are
  external collaborators; they enter as explicit parameters (`FetchEnv`,
  `extract`, `sentTok`).  A fallible `extract` models exceptions raised
  during parsing.
* NLTK `word_tokenize` is modelled as whitespace splitting: on the
  whitespace-separated text handled in this development it agrees with the
  Treebank tokenizer, and non-alphabetic fragments are discarded by the
  `isalpha` filter immediately afterwards in the source.
* WordNet noun lemmatization (`WordNetLemmatizer().lemmatize`, default pos)
  is the identity on every token occurring in this development (no plural
  or inflected noun appears), so it is modelled as the identity.
* The exception raised by `ratelimit` escaping a call is modelled by the
  `Except.error ()` constructor: `rate_limited_get_url_content` and
  `generate_response` return `Except Unit String`.
-/

namespace XDbit

/-! ## Python string primitives (character-list model) -/

/-- Python `str.lower()` (ASCII model; all text handled here is ASCII). -/
def strLower (s : String) : String := ⟨s.data.map Char.toLower⟩

/-- Boolean prefix test on character lists. -/
def listPrefixEq : List Char → List Char → Bool
  | [], _ => true
  | _ :: _, [] => false
  | a :: as, b :: bs => a = b && listPrefixEq as bs

/-- Python `s.startswith(p)`. -/
def strStartsWith (s p : String) : Bool := listPrefixEq p.data s.data

/-- Python `sub in s` substring membership. -/
def pyIn (sub s : String) : Bool :=
  (List.range (s.data.length + 1)).any fun i => listPrefixEq sub.data (s.data.drop i)

/-- Python `s[n:]` (character slice). -/
def strDrop (s : String) (n : ℕ) : String := ⟨s.data.drop n⟩

/-- Python `s[:n]` (character slice). -/
def strTake (s : String) (n : ℕ) : String := ⟨s.data.take n⟩

/-- Python `len(s)` in characters. -/
def strLen (s : String) : ℕ := s.data.length

/-- Python `str.strip()` on a character list. -/
def pyStripL (l : List Char) : List Char :=
  ((l.dropWhile Char.isWhitespace).reverse.dropWhile Char.isWhitespace).reverse

/-- Python `str.strip()`. -/
def pyStrip (s : String) : String := ⟨pyStripL s.data⟩

/-- Python `str.split("  ")`: split on each non-overlapping occurrence
of two consecutive spaces, scanning left to right. -/
def splitTwoSpace : List Char → List (List Char)
  | [] => [[]]
  | ' ' :: ' ' :: rest => [] :: splitTwoSpace rest
  | c :: rest =>
    match splitTwoSpace rest with
    | g :: gs => (c :: g) :: gs
    | [] => [[c]]

/-- Python `str.splitlines()` (newline-only model, as produced by
`soup.get_text()`; no trailing empty line). -/
def splitLines (l : List Char) : List (List Char) :=
  if l = [] then []
  else
    let parts := l.splitOnP (· = '\n')
    if l.getLast? = some '\n' then parts.dropLast else parts

/-! ## NLP preprocessing (`app.py` lines 28-29, 99-102) -/

/-- The NLTK English stop-word list (`stopwords.words('english')`),
bound to `stop_words` at `app.py` line 29. -/
def stop_words : List String :=
  ["i", "me", "my", "myself", "we", "our", "ours", "ourselves", "you",
   "you\u0027re", "you\u0027ve", "you\u0027ll", "you\u0027d", "your", "yours",
   "yourself", "yourselves", "he", "him", "his", "himself", "she",
   "she\u0027s", "her", "hers", "herself", "it", "it\u0027s", "its", "itself",
   "they", "them", "their", "theirs", "themselves", "what", "which", "who",
   "whom", "this", "that", "that\u0027ll", "these", "those", "am", "is",
   "are", "was", "were", "be", "been", "being", "have", "has", "had",
   "having", "do", "does", "did", "doing", "a", "an", "the", "and", "but",
   "if", "or", "because", "as", "until", "while", "of", "at", "by", "for",
   "with", "about", "against", "between", "into", "through", "during",
   "before", "after", "above", "below", "to", "from", "up", "down", "in",
   "out", "on", "off", "over", "under", "again", "further", "then", "once",
   "here", "there", "when", "where", "why", "how", "all", "any", "both",
   "each", "few", "more", "most", "other", "some", "such", "no", "nor",
   "not", "only", "own", "same", "so", "than", "too", "very", "s", "t",
   "can", "will", "just", "don", "don\u0027t", "should", "should\u0027ve",
   "now", "d", "ll", "m", "o", "re", "ve", "y", "ain", "aren",
   "aren\u0027t", "couldn", "couldn\u0027t", "didn", "didn\u0027t", "doesn",
   "doesn\u0027t", "hadn", "hadn\u0027t", "hasn", "hasn\u0027t", "haven",
   "haven\u0027t", "isn", "isn\u0027t", "ma", "mightn", "mightn\u0027t",
   "mustn", "mustn\u0027t", "needn", "needn\u0027t", "shan", "shan\u0027t",
   "shouldn", "shouldn\u0027t", "wasn", "wasn\u0027t", "weren",
   "weren\u0027t", "won", "won\u0027t", "wouldn", "wouldn\u0027t"]

/-- NLTK `word_tokenize`, modelled as whitespace splitting (see the header
note: it agrees with the Treebank tokenizer on the whitespace-separated
text handled here, and non-alphabetic fragments are dropped by `isalpha`
right after). -/
def word_tokenize (s : String) : List String :=
  ((s.data.splitOnP Char.isWhitespace).filter (· ≠ [])).map fun l => ⟨l⟩

/-- Python `str.isalpha()` (ASCII model). -/
def isalpha (s : String) : Bool := s.data ≠ [] && s.data.all Char.isAlpha

/-- `WordNetLemmatizer().lemmatize` with the default (noun) part of speech,
modelled as the identity: every token occurring in this development is its
own noun lemma. -/
def lemmatize (t : String) : String := t

/-- `preprocess` (`app.py` lines 99-102): lowercase, tokenize, keep
alphabetic non-stop-word tokens, lemmatize, re-join with single spaces. -/
def preprocess (text : String) : String :=
  let tokens := word_tokenize (strLower text)
  let lemmas := (tokens.filter fun tok =>
    isalpha tok && !(stop_words.contains tok)).map lemmatize
  String.intercalate " " lemmas

/-! ## TfidfVectorizer (`app.py` lines 44-46), scikit-learn defaults -/

/-- A regex `\w` word character (ASCII model). -/
def isWordChar (c : Char) : Bool := c.isAlphanum || c = '_'

/-- `TfidfVectorizer`'s default analyzer: lowercase, then the tokens are the
maximal runs of word characters of length at least 2
(`token_pattern=r"(?u)\b\w\w+\b"`). -/
def tfidfTokenize (s : String) : List String :=
  (((strLower s).data.splitOnP (fun c => !isWordChar c)).filter
    (fun t => 2 ≤ t.length)).map fun l => ⟨l⟩

/-- The knowledge-base question corpus (`app.py` line 45), in source order. -/
def knowledge_questions : List String :=
  ["hello", "how are you", "what is your name", "tell me a joke",
   "what time is it", "what is the date", "who is albert einstein",
   "define artificial intelligence"]

/-- The fit corpus, tokenized by the vectorizer's own analyzer.  Note: the
source fits on the raw questions (`vectorizer.fit_transform
(knowledge_questions)`), NOT on `preprocess`-ed questions. -/
def docsTokens : List (List String) := knowledge_questions.map tfidfTokenize

/-- The fitted vocabulary: all distinct terms of the fit corpus. -/
def vocabList : List String := docsTokens.flatten.dedup

/-- Document frequency of a term in the fit corpus. -/
def df (t : String) : ℕ := (docsTokens.filter fun d => t ∈ d).length

/-- Smoothed inverse document frequency, scikit-learn's
`log((1 + n)/(1 + df(t))) + 1` with `n` the corpus size. -/
noncomputable def idf (t : String) : ℝ :=
  Real.log ((1 + (knowledge_questions.length : ℝ)) / (1 + (df t : ℝ))) + 1

/-- Unnormalized tf-idf vector of a fit document (term-frequency × idf). -/
noncomputable def docVecRaw (d : List String) : String → ℝ :=
  fun t => (d.count t : ℝ) * idf t

/-- Unnormalized tf-idf vector of a query
(`vectorizer.transform([processed_input])`, `app.py` line 106): the
preprocessed input is re-tokenized by the vectorizer's analyzer and term
frequencies are restricted to the frozen vocabulary. -/
noncomputable def queryVecRaw (input : String) : String → ℝ :=
  fun t => if t ∈ vocabList
    then ((tfidfTokenize (preprocess input)).count t : ℝ) * idf t else 0

/-- Dot product over the vocabulary coordinates. -/
noncomputable def dotV (v w : String → ℝ) : ℝ :=
  (vocabList.map fun t => v t * w t).sum

/-- Euclidean norm over the vocabulary coordinates. -/
noncomputable def normV (v : String → ℝ) : ℝ := Real.sqrt (dotV v v)

/-- scikit-learn `normalize`: divide by the l2 norm, leaving zero vectors
unchanged. -/
noncomputable def l2normalize (v : String → ℝ) : String → ℝ :=
  fun t => if normV v = 0 then v t else v t / normV v

/-- `cosine_similarity` (`app.py` line 107): dot product of the
l2-normalized vectors (`fit_transform`'s own l2 normalization of the
document vectors is idempotent under this second normalization, so it is
performed once here). -/
noncomputable def cosineSim (v w : String → ℝ) : ℝ :=
  dotV (l2normalize v) (l2normalize w)

/-- The similarity row `cosine_similarity(input_vec, knowledge_vectors)
.flatten()`: one cosine similarity per knowledge entry, in corpus order. -/
noncomputable def similarities (input : String) : List ℝ :=
  docsTokens.map fun d => cosineSim (queryVecRaw input) (docVecRaw d)

/-- `numpy.argmax` helper: scan with current best index and value, strictly
greater values replace the best, so the first maximum wins. -/
noncomputable def argmaxAux : List ℝ → ℕ → ℕ → ℝ → ℕ
  | [], _, bi, _ => bi
  | x :: xs, i, bi, bv =>
    if x > bv then argmaxAux xs (i+1) i x else argmaxAux xs (i+1) bi bv

/-- `numpy.argmax` over a list of scores (first index of the maximum;
`0` on the empty list). -/
noncomputable def argmaxIdx : List ℝ → ℕ
  | [] => 0
  | x :: xs => argmaxAux xs 1 0 x

/-! ## Knowledge base and matcher (`app.py` lines 32-42, 104-115) -/

/-- The ambient wall clock read by the dynamic answers
(`time.strftime('%H:%M:%S')` / `time.strftime('%Y-%m-%d')`). -/
structure Clock where
  time : String
  date : String

/-- An answer value: static text, or a closure over the clock (the Python
dict entries carrying `"dynamic": True` hold lambdas). -/
inductive Answer where
  | static (s : String)
  | dynamic (f : Clock → String)

/-- One knowledge-base entry (`{"question": ..., "answer": ...}`). -/
structure KEntry where
  question : String
  answer : Answer

/-- `ADVANCED_KNOWLEDGE` (`app.py` lines 32-42), in source order. -/
def ADVANCED_KNOWLEDGE : List KEntry :=
  [⟨"hello", .static "Hello there! How can I help you today?"⟩,
   ⟨"how are you",
    .static "I\u0027m just a program, but I\u0027m doing great! Thanks for asking."⟩,
   ⟨"what is your name", .static "I am an NLTK Flask Chatbot."⟩,
   ⟨"tell me a joke",
    .static "Why don\u0027t scientists trust atoms? Because they make up everything!"⟩,
   ⟨"what time is it",
    .dynamic fun c => "The current time is " ++ c.time ++ "."⟩,
   ⟨"what is the date",
    .dynamic fun c => "Today\u0027s date is " ++ c.date ++ "."⟩,
   ⟨"who is albert einstein",
    .static "Albert Einstein was a theoretical physicist who developed the theory of relativity."⟩,
   ⟨"define artificial intelligence",
    .static "Artificial Intelligence is the simulation of human intelligence in machines."⟩]

/-- Resolve a matched entry's answer (`app.py` lines 111-114): invoke the
lambda now if the entry is dynamic, else return the static text. -/
def resolveAnswer (clock : Clock) : Answer → String
  | .static s => s
  | .dynamic f => f clock

/-- Placeholder entry for the (never-taken) out-of-range index default. -/
def defaultEntry : KEntry := ⟨"", .static ""⟩

/-- The tail of `custom_semantic_match` (`app.py` lines 108-115): arg-max
over the similarity row, strict `> 0.6` acceptance threshold, answer
resolution. -/
noncomputable def threshold_decide (clock : Clock) (sims : List ℝ) : Option String :=
  let idx := argmaxIdx sims
  if sims.getD idx 0 > (0.6 : ℝ) then
    some (resolveAnswer clock (ADVANCED_KNOWLEDGE.getD idx defaultEntry).answer)
  else none

/-- `custom_semantic_match` (`app.py` lines 104-115). -/
noncomputable def custom_semantic_match (clock : Clock) (user_input : String) :
    Option String :=
  threshold_decide clock (similarities user_input)

/-! ## Rate limiter and fetcher (`app.py` lines 30, 73-97) -/

/-- The state of the `@ratelimit.limits(calls=10, period=60)` decorator
(PyPI `ratelimit` package): the start of the current fixed window and the
number of calls counted in it. -/
structure DecoratorState where
  lastReset : ℚ
  numCalls : ℕ

/-- The full mutable state: the decorator state plus the module-level
`last_request_time[0]` cell (`app.py` line 30). -/
structure SysState where
  dec : DecoratorState
  lastReq : ℚ

/-- The state at module load (process start at time 0): the decorator's
window anchor and `last_request_time[0]` are both initialized to the
current time. -/
def initState : SysState := ⟨⟨0, 0⟩, 0⟩

/-- One call through the `ratelimit` decorator at time `t`: if the period
has elapsed the window resets; the call counter always increments; a call
making the count exceed 10 is rejected (`RateLimitException`). -/
def decoratorStep (s : DecoratorState) (t : ℚ) : Bool × DecoratorState :=
  let s1 := if 60 ≤ t - s.lastReset then DecoratorState.mk t 0 else s
  let n := s1.numCalls + 1
  (decide (10 < n), ⟨s1.lastReset, n⟩)

/-- The minimum-spacing sleep (`app.py` lines 76-78): a call arriving less
than 1 time-unit after `last_request_time[0]` sleeps for the deficit; the
returned value is the time at which execution proceeds. -/
def spacingStep (lastReq t : ℚ) : ℚ :=
  if t - lastReq < 1 then lastReq + 1 else t

/-- What the network produced for this call: a response (with its decoded
body text, whether the status was 2xx, and the message `raise_for_status()`
would raise otherwise), or a `requests.exceptions.RequestException`. -/
inductive FetchEnv where
  | response (ok : Bool) (text : String) (statusErr : String)
  | requestExc (msg : String)

/-- The HTML-to-text post-processing (`app.py` lines 90-92): strip each
line, re-split lines on runs of two spaces, drop empty fragments, re-join
with newlines. -/
def processText (raw : String) : String :=
  let lines := (splitLines raw.data).map pyStripL
  let chunks := (lines.map fun line => (splitTwoSpace line).map pyStripL).flatten
  ⟨List.intercalate ['\n'] (chunks.filter (· ≠ []))⟩

/-- The body of `rate_limited_get_url_content` after the spacing sleep
(`app.py` lines 81-97): status validation, the "Disallow" heuristic, HTML
extraction (the external `extract` parameter models
`BeautifulSoup`/`get_text` with `<script>`/`<style>` removal, and its
`.error` case an exception raised during parsing), post-processing, and
the two `except` clauses converting exceptions to strings. -/
def get_url_content_body (extract : String → Except String String)
    (env : FetchEnv) : String :=
  match env with
  | .requestExc msg => "Error accessing URL: " ++ msg
  | .response ok text statusErr =>
    if !ok then "Error accessing URL: " ++ statusErr
    else if pyIn "Disallow" text then "Scraping not permitted by website."
    else
      match extract text with
      | .error e => "An unexpected error occurred during scraping: " ++ e
      | .ok raw => processText raw

/-- The outcome of one call of `rate_limited_get_url_content`: the result
(`.error ()` models an escaping `RateLimitException`), the completion time,
and the new state. -/
structure CallResult where
  out : Except Unit String
  finish : ℚ
  st : SysState

/-- `rate_limited_get_url_content` (`app.py` lines 73-97) as a state
transformer: the decorator either rejects the call (raising, body never
entered, `last_request_time` unchanged) or lets the body run, which sleeps
for the spacing deficit, records the post-sleep time into
`last_request_time[0]`, and produces the body's string. -/
def rate_limited_get_url_content (extract : String → Except String String)
    (env : FetchEnv) (url : String) (t : ℚ) (s : SysState) : CallResult :=
  let rd := decoratorStep s.dec t
  if rd.1 then ⟨.error (), t, ⟨rd.2, s.lastReq⟩⟩
  else
    let c := spacingStep s.lastReq t
    ⟨.ok (get_url_content_body extract env), c, ⟨rd.2, c⟩⟩

/-- A sequence of calls at given arrival times, threading the shared state;
each element is the call's outcome and completion time. -/
def runCalls (extract : String → Except String String) (env : FetchEnv)
    (url : String) : List ℚ → SysState → List (Except Unit String × ℚ)
  | [], _ => []
  | t :: ts, s =>
    let r := rate_limited_get_url_content extract env url t s
    (r.out, r.finish) :: runCalls extract env url ts r.st

/-! ## Router (`app.py` lines 117-136) -/

/-- The outcome of `generate_response`: the response (`.error ()` models an
escaping `RateLimitException`), the list of URLs fetched during the call,
and the new shared state. -/
structure GRResult where
  out : Except Unit String
  fetched : List String
  st : SysState

/-- The preview built at `app.py` line 126: the first 500 characters,
plus an ellipsis marker iff the text is longer than 500 characters. -/
def previewOf (text : String) : String :=
  strTake text 500 ++ (if 500 < strLen text then "..." else "")

/-- `generate_response` (`app.py` lines 117-136).  `sentTok` models NLTK
`sent_tokenize`.  Python truthiness of `if match:` is the `some`
non-empty-string case; of `if url:` / `if sents:`, non-emptiness. -/
noncomputable def generate_response (extract : String → Except String String)
    (env : FetchEnv) (sentTok : String → List String) (clock : Clock)
    (t : ℚ) (s : SysState) (user_input : String) : GRResult :=
  let fallback : GRResult :=
    match sentTok user_input with
    | sent :: _ =>
      ⟨.ok ("I\u0027m not sure how to respond to that. You said: \""
          ++ sent ++ "\""), [], s⟩
    | [] => ⟨.ok "I\u0027m not sure how to respond to that.", [], s⟩
  if strStartsWith (strLower user_input) "scrape " then
    let url := pyStrip (strDrop user_input 7)
    if url = "" then ⟨.ok "Please provide a URL to scrape.", [], s⟩
    else
      let r := rate_limited_get_url_content extract env url t s
      match r.out with
      | .error e => ⟨.error e, [url], r.st⟩
      | .ok scraped =>
        if strStartsWith scraped "Error"
            || strStartsWith scraped "Scraping not permitted" then
          ⟨.ok scraped, [url], r.st⟩
        else
          ⟨.ok ("Successfully scraped content from " ++ url ++ ":<br><pre>"
              ++ previewOf scraped ++ "</pre>"), [url], r.st⟩
  else
    match custom_semantic_match clock user_input with
    | some m => if m = "" then fallback else ⟨.ok m, [], s⟩
    | none => fallback

/-! ## Fixed inputs used for concrete evaluations -/

/-- A trivial extractor (never used on the paths it appears on). -/
def extract0 : String → Except String String := fun _ => .ok ""

/-- A network environment producing a connection error. -/
def env0 : FetchEnv := .requestExc "connection refused"

/-- A trivial sentence tokenizer. -/
def sT0 : String → List String := fun _ => []

/-- A fixed clock reading. -/
def clock0 : Clock := ⟨"12:00:00", "2026-01-01"⟩

deriving instance DecidableEq for Except

/-! ## General lemmas about the fitted model -/

lemma vocab_nodup : vocabList.Nodup := by decide

lemma dotV_finset (v w : String → ℝ) :
    dotV v w = ∑ t in vocabList.toFinset, v t * w t := by
  rw [dotV, List.sum_toFinset _ vocab_nodup]

/-- Every idf weight is positive (in fact at least 1): the smoothing keeps
the logarithm's argument at least 1. -/
lemma idf_pos (t : String) : 0 < idf t := by
  have hdf : df t ≤ 8 := by
    have h := List.length_filter_le (fun d => t ∈ d) docsTokens
    simpa [df, docsTokens, knowledge_questions] using h
  have h1 : (0:ℝ) < 1 + (df t : ℝ) := by positivity
  have h9 : (1 + (df t : ℝ)) ≤ 9 := by
    have : (df t : ℝ) ≤ 8 := by exact_mod_cast hdf
    linarith
  have hlen : ((knowledge_questions.length : ℝ)) = 8 := by
    norm_num [knowledge_questions]
  have hlog : 0 ≤ Real.log ((1 + (knowledge_questions.length : ℝ)) / (1 + (df t : ℝ))) := by
    apply Real.log_nonneg
    rw [le_div_iff₀ h1, hlen]
    linarith
  have hidf : idf t
      = Real.log ((1 + (knowledge_questions.length : ℝ)) / (1 + (df t : ℝ))) + 1 := rfl
  linarith

lemma cosineSim_eq_div (v w : String → ℝ) (hv : normV v ≠ 0) (hw : normV w ≠ 0) :
    cosineSim v w = dotV v w / (normV v * normV w) := by
  rw [cosineSim, dotV_finset, dotV_finset]
  rw [Finset.sum_congr rfl (fun t _ => by
    rw [l2normalize, l2normalize, if_neg hv, if_neg hw, div_mul_div_comm])]
  rw [← Finset.sum_div]

/-- A query sharing no analyzer token with the vocabulary has the all-zero
query vector. -/
lemma queryVecRaw_zero (input : String)
    (h : ∀ tk ∈ tfidfTokenize (preprocess input), tk ∉ vocabList) :
    ∀ t, queryVecRaw input t = 0 := by
  intro t
  rw [queryVecRaw]
  by_cases hv : t ∈ vocabList
  · rw [if_pos hv]
    have hnm : t ∉ tfidfTokenize (preprocess input) := fun hm => h t hm hv
    rw [List.count_eq_zero.mpr hnm]
    norm_num
  · rw [if_neg hv]

lemma l2normalize_zero_at (v : String → ℝ) (t : String) (h : v t = 0) :
    l2normalize v t = 0 := by
  rw [l2normalize]
  by_cases hn : normV v = 0 <;> simp [hn, h]

lemma cosineSim_zero_left (v w : String → ℝ) (h : ∀ t, v t = 0) :
    cosineSim v w = 0 := by
  rw [cosineSim, dotV]
  apply List.sum_eq_zero
  intro x hx
  rcases List.mem_map.mp hx with ⟨t, _, rfl⟩
  rw [l2normalize_zero_at v t (h t), zero_mul]

lemma similarities_zero (input : String)
    (h : ∀ tk ∈ tfidfTokenize (preprocess input), tk ∉ vocabList) :
    ∀ x ∈ similarities input, x = 0 := by
  intro x hx
  rcases List.mem_map.mp hx with ⟨d, _, rfl⟩
  exact cosineSim_zero_left _ _ (queryVecRaw_zero input h)

/-- The score the matcher reads (`similarities[max_sim_idx]`) is an element
of the similarity row, or the out-of-range default 0. -/
lemma score_cases (sims : List ℝ) (i : ℕ) :
    sims.getD i 0 ∈ sims ∨ sims.getD i 0 = 0 := by
  by_cases h : i < sims.length
  · left
    rw [List.getD_eq_getElem sims 0 h]
    exact List.getElem_mem h
  · right
    exact List.getD_eq_default sims 0 (le_of_not_lt h)

lemma threshold_none_of_all_zero (clock : Clock) (sims : List ℝ)
    (h : ∀ x ∈ sims, x = 0) : threshold_decide clock sims = none := by
  have hsc : sims.getD (argmaxIdx sims) 0 = 0 := by
    rcases score_cases sims (argmaxIdx sims) with hm | hz
    · exact h _ hm
    · exact hz
  simp only [threshold_decide, hsc]
  norm_num

/-- A query sharing no analyzer token with the vocabulary produces no
match. -/
lemma match_none_of_no_vocab (clock : Clock) (input : String)
    (h : ∀ tk ∈ tfidfTokenize (preprocess input), tk ∉ vocabList) :
    custom_semantic_match clock input = none :=
  threshold_none_of_all_zero clock _ (similarities_zero input h)

/-! ## Lemmas about the Python string primitives -/

lemma listPrefixEq_append_of_le (p l rest : List Char) (h : p.length ≤ l.length) :
    listPrefixEq p (l ++ rest) = listPrefixEq p l := by
  induction p generalizing l with
  | nil => rfl
  | cons a as ih =>
    cases l with
    | nil => simp at h
    | cons b bs =>
      simp only [List.cons_append, listPrefixEq, List.append_eq]
      rw [ih bs (by simpa using h)]

lemma strStartsWith_append (pre suf p : String)
    (hlen : p.data.length ≤ pre.data.length) :
    strStartsWith (pre ++ suf) p = strStartsWith pre p := by
  rw [strStartsWith, strStartsWith, String.data_append,
    listPrefixEq_append_of_le _ _ _ hlen]

/-- Any input of the shape `"scrape " ++ url` enters the scrape branch. -/
lemma strLower_scrape_prefix (url : String) :
    strStartsWith (strLower ("scrape " ++ url)) "scrape " = true := by
  rw [strLower, String.data_append, List.map_append]
  rw [show ("scrape ".data.map Char.toLower) = "scrape ".data from by decide]
  show listPrefixEq "scrape ".data ("scrape ".data ++ _) = true
  rw [listPrefixEq_append_of_le _ _ _ (le_refl _)]
  decide

lemma strDrop_scrape (url : String) : strDrop ("scrape " ++ url) 7 = url := by
  rw [strDrop, String.data_append]
  rw [show (7 : ℕ) = "scrape ".data.length from rfl, List.drop_left]

lemma strTake_of_le (text : String) (h : strLen text ≤ 500) :
    strTake text 500 = text := by
  rw [strTake, List.take_of_length_le h]

end XDbit

namespace XDbit

/-! ## Reduction lemmas for the router's scrape branch -/

/-- A scrape command whose fetch completes and returns text beginning with
an error/disallowed sentinel passes the text through verbatim. -/
lemma generate_response_scrape_passthrough (extract : String → Except String String)
    (env : FetchEnv) (sentTok : String → List String) (clock : Clock)
    (t : ℚ) (s : SysState) (url : String)
    (hu : pyStrip url ≠ "") (hok : (decoratorStep s.dec t).1 = false)
    (hpre : strStartsWith (get_url_content_body extract env) "Error" = true
      ∨ strStartsWith (get_url_content_body extract env) "Scraping not permitted" = true) :
    generate_response extract env sentTok clock t s ("scrape " ++ url)
      = ⟨.ok (get_url_content_body extract env), [pyStrip url],
          ⟨(decoratorStep s.dec t).2, spacingStep s.lastReq t⟩⟩ := by
  simp only [generate_response, strLower_scrape_prefix, strDrop_scrape,
    rate_limited_get_url_content, hok, hu, if_true, ite_true, Bool.false_eq_true,
    ite_false, if_neg hu]
  rcases hpre with hpre | hpre <;> simp [hpre]

/-- A scrape command whose fetch completes and returns non-sentinel text is
wrapped in the success format with the 500-character preview. -/
lemma generate_response_scrape_success (extract : String → Except String String)
    (env : FetchEnv) (sentTok : String → List String) (clock : Clock)
    (t : ℚ) (s : SysState) (url : String)
    (hu : pyStrip url ≠ "") (hok : (decoratorStep s.dec t).1 = false)
    (hpre1 : strStartsWith (get_url_content_body extract env) "Error" = false)
    (hpre2 : strStartsWith (get_url_content_body extract env) "Scraping not permitted" = false) :
    generate_response extract env sentTok clock t s ("scrape " ++ url)
      = ⟨.ok ("Successfully scraped content from " ++ pyStrip url ++ ":<br><pre>"
            ++ previewOf (get_url_content_body extract env) ++ "</pre>"),
          [pyStrip url], ⟨(decoratorStep s.dec t).2, spacingStep s.lastReq t⟩⟩ := by
  simp only [generate_response, strLower_scrape_prefix, strDrop_scrape,
    rate_limited_get_url_content, hok, hu, if_true, ite_true, Bool.false_eq_true,
    ite_false, if_neg hu]
  simp [hpre1, hpre2]

/-! ## Claim C8: preview truncation -/

/-- C8: for every successfully fetched non-sentinel text, the router's
response embeds exactly `previewOf` of that text, and `previewOf` is the
first 500 characters followed by the ellipsis marker "..." when the text
is longer than 500 characters, and exactly the text with no marker when
its length is at most 500. -/
theorem C8_preview_truncation (extract : String → Except String String)
    (sentTok : String → List String) (clock : Clock) (t : ℚ) (s : SysState)
    (url text statusErr raw : String)
    (hu : pyStrip url ≠ "") (hok : (decoratorStep s.dec t).1 = false)
    (hdis : pyIn "Disallow" text = false) (hx : extract text = .ok raw)
    (hpre1 : strStartsWith (processText raw) "Error" = false)
    (hpre2 : strStartsWith (processText raw) "Scraping not permitted" = false) :
    (generate_response extract (.response true text statusErr) sentTok clock t s
        ("scrape " ++ url)).out
      = .ok ("Successfully scraped content from " ++ pyStrip url ++ ":<br><pre>"
          ++ previewOf (processText raw) ++ "</pre>")
    ∧ (500 < strLen (processText raw) →
        previewOf (processText raw) = strTake (processText raw) 500 ++ "...")
    ∧ (strLen (processText raw) ≤ 500 →
        previewOf (processText raw) = processText raw) := by
  have hbody : get_url_content_body extract (.response true text statusErr)
      = processText raw := by
    simp [get_url_content_body, hdis, hx]
  refine ⟨?_, ?_, ?_⟩
  · rw [generate_response_scrape_success extract _ sentTok clock t s url hu hok
      (by rw [hbody]; exact hpre1) (by rw [hbody]; exact hpre2), hbody]
  · intro hlong
    rw [previewOf, if_pos hlong]
  · intro hshort
    rw [previewOf, if_neg (by omega), strTake_of_le _ hshort]
    exact String.append_empty _

/-- Witness for C8 at a concrete short fetch. -/
theorem C8_preview_truncation_witness :
    (generate_response (fun _ => .ok "Example Domain text")
        (.response true "<html>b</html>" "") sT0 clock0 0 initState
        ("scrape " ++ "http://e")).out
      = .ok "Successfully scraped content from http://e:<br><pre>Example Domain text</pre>" := by
  have h := (C8_preview_truncation (fun _ => .ok "Example Domain text") sT0 clock0 0
    initState "http://e" "<html>b</html>" "" "Example Domain text"
    (by decide) (by norm_num [decoratorStep, initState]) (by decide) rfl
    (by decide) (by decide)).1
  rw [h]
  decide

/-! ## Claim C10: error detection is by string prefix -/

/-- C10: error detection in the router is a string-prefix test on the
fetcher's returned text: a successful fetch whose extracted page text
happens to begin with "Error" or "Scraping not permitted" is returned
verbatim as though it were a failure, with no success wrapper and no
preview. -/
theorem C10_prefix_detection (extract : String → Except String String)
    (sentTok : String → List String) (clock : Clock) (t : ℚ) (s : SysState)
    (url text statusErr raw : String)
    (hu : pyStrip url ≠ "") (hok : (decoratorStep s.dec t).1 = false)
    (hdis : pyIn "Disallow" text = false) (hx : extract text = .ok raw)
    (hpre : strStartsWith (processText raw) "Error" = true
      ∨ strStartsWith (processText raw) "Scraping not permitted" = true) :
    (generate_response extract (.response true text statusErr) sentTok clock t s
        ("scrape " ++ url)).out = .ok (processText raw) := by
  have hbody : get_url_content_body extract (.response true text statusErr)
      = processText raw := by
    simp [get_url_content_body, hdis, hx]
  rw [generate_response_scrape_passthrough extract _ sentTok clock t s url hu hok
    (by rw [hbody]; exact hpre), hbody]

/-- Witness for C10: a page whose innocent text starts with "Error" is
passed through as a failure. -/
theorem C10_prefix_detection_witness :
    (generate_response (fun _ => .ok "Error codes are documented here")
        (.response true "<html>c</html>" "") sT0 clock0 0 initState
        ("scrape " ++ "http://e")).out
      = .ok "Error codes are documented here" := by
  have h := C10_prefix_detection (fun _ => .ok "Error codes are documented here")
    sT0 clock0 0 initState "http://e" "<html>c</html>" "" "Error codes are documented here"
    (by decide) (by norm_num [decoratorStep, initState]) (by decide) rfl
    (Or.inl (by decide))
  rw [h]
  decide

/-! ## Claim C9: the "Disallow" heuristic -/

/-- C9 (amended): for every response that passes status validation (2xx)
and whose raw body contains the substring "Disallow", the fetcher body
returns exactly the sentinel, for every extraction function — i.e. without
performing HTML parsing or text extraction. -/
theorem C9_disallow_sentinel (extract : String → Except String String)
    (text statusErr : String) (hdis : pyIn "Disallow" text = true) :
    get_url_content_body extract (.response true text statusErr)
      = "Scraping not permitted by website." := by
  simp [get_url_content_body, hdis]

/-- Witness for C9 at a concrete robots-style body. -/
theorem C9_disallow_sentinel_witness :
    get_url_content_body extract0 (.response true "User-agent: * Disallow: /" "")
      = "Scraping not permitted by website." :=
  C9_disallow_sentinel extract0 "User-agent: * Disallow: /" "" (by decide)

/-- Counterexample to C9 as stated: a non-2xx response whose body contains
"Disallow" is reported as an HTTP error, not as the sentinel, because
`raise_for_status()` runs before the "Disallow" check. -/
theorem C9_counterexample :
    pyIn "Disallow" "Disallow: /" = true
    ∧ get_url_content_body extract0
        (.response false "Disallow: /" "404 Client Error: Not Found")
      = "Error accessing URL: 404 Client Error: Not Found"
    ∧ ("Error accessing URL: 404 Client Error: Not Found"
        ≠ "Scraping not permitted by website.") := by
  refine ⟨by decide, ?_, by decide⟩
  decide

/-! ## Claim C4: surfacing of fetch-layer failures -/

/-- C4 (amended): network-layer failures (`RequestException`, including
`raise_for_status`) and the disallowed sentinel are returned to the user
verbatim, but internal/unexpected failures ("An unexpected error occurred
during scraping: …") do NOT match the router's "Error"/"Scraping not
permitted" prefix test and are wrapped in the success-preview format. -/
theorem C4_error_surfacing (sentTok : String → List String) (clock : Clock)
    (t : ℚ) (s : SysState) (url : String)
    (hu : pyStrip url ≠ "") (hok : (decoratorStep s.dec t).1 = false) :
    (∀ (extract : String → Except String String) (msg : String),
      (generate_response extract (.requestExc msg) sentTok clock t s
          ("scrape " ++ url)).out = .ok ("Error accessing URL: " ++ msg))
    ∧ (∀ (extract : String → Except String String) (text statusErr : String),
        pyIn "Disallow" text = true →
        (generate_response extract (.response true text statusErr) sentTok clock t s
            ("scrape " ++ url)).out = .ok "Scraping not permitted by website.")
    ∧ (∀ (extract : String → Except String String) (text statusErr e : String),
        pyIn "Disallow" text = false → extract text = .error e →
        (generate_response extract (.response true text statusErr) sentTok clock t s
            ("scrape " ++ url)).out
          = .ok ("Successfully scraped content from " ++ pyStrip url ++ ":<br><pre>"
              ++ previewOf ("An unexpected error occurred during scraping: " ++ e)
              ++ "</pre>")) := by
  refine ⟨?_, ?_, ?_⟩
  · intro extract msg
    have hbody : get_url_content_body extract (.requestExc msg)
        = "Error accessing URL: " ++ msg := rfl
    have hpre : strStartsWith ("Error accessing URL: " ++ msg) "Error" = true := by
      rw [strStartsWith_append _ _ _ (by decide)]
      decide
    rw [generate_response_scrape_passthrough extract _ sentTok clock t s url hu hok
      (Or.inl (by rw [hbody]; exact hpre)), hbody]
  · intro extract text statusErr hdis
    have hbody : get_url_content_body extract (.response true text statusErr)
        = "Scraping not permitted by website." := by
      simp [get_url_content_body, hdis]
    rw [generate_response_scrape_passthrough extract _ sentTok clock t s url hu hok
      (Or.inr (by rw [hbody]; decide)), hbody]
  · intro extract text statusErr e hdis hx
    have hbody : get_url_content_body extract (.response true text statusErr)
        = "An unexpected error occurred during scraping: " ++ e := by
      simp [get_url_content_body, hdis, hx]
    have hpre1 : strStartsWith ("An unexpected error occurred during scraping: " ++ e)
        "Error" = false := by
      rw [strStartsWith_append _ _ _ (by decide)]
      decide
    have hpre2 : strStartsWith ("An unexpected error occurred during scraping: " ++ e)
        "Scraping not permitted" = false := by
      rw [strStartsWith_append _ _ _ (by decide)]
      decide
    rw [generate_response_scrape_success extract _ sentTok clock t s url hu hok
      (by rw [hbody]; exact hpre1) (by rw [hbody]; exact hpre2), hbody]

/-- Witness for C4 at a concrete network failure: the error text passes
through verbatim. -/
theorem C4_error_surfacing_witness :
    (generate_response extract0 (.requestExc "timeout") sT0 clock0 0 initState
        ("scrape " ++ "http://e")).out = .ok "Error accessing URL: timeout" := by
  have h := (C4_error_surfacing sT0 clock0 0 initState "http://e"
    (by decide) (by norm_num [decoratorStep, initState])).1 extract0 "timeout"
  rw [h]
  decide

/-- Counterexample to C4 as stated: an internal/unexpected failure during
extraction is NOT surfaced verbatim — the router wraps the error text in
the success-preview format. -/
theorem C4_counterexample :
    (generate_response (fun _ => Except.error "boom")
        (.response true "<html>x</html>" "") sT0 clock0 0 initState
        "scrape http://x").out
      = Except.ok ("Successfully scraped content from http://x:<br><pre>An unexpected error occurred during scraping: boom</pre>") := by
  norm_num [generate_response, rate_limited_get_url_content,
    decoratorStep, get_url_content_body, initState, sT0, clock0,
    show strStartsWith (strLower "scrape http://x") "scrape " = true from by decide,
    show pyStrip (strDrop "scrape http://x" 7) = "http://x" from by decide,
    show pyIn "Disallow" "<html>x</html>" = false from by decide,
    show strStartsWith "An unexpected error occurred during scraping: boom" "Error" = false from by decide,
    show strStartsWith "An unexpected error occurred during scraping: boom" "Scraping not permitted" = false from by decide,
    show previewOf "An unexpected error occurred during scraping: boom" = "An unexpected error occurred during scraping: boom" from by decide,
    show ("An unexpected error occurred during scraping: " ++ "boom" : String) = "An unexpected error occurred during scraping: boom" from by decide,
    show ("Successfully scraped content from " ++ "http://x" ++ ":<br><pre>" ++ "An unexpected error occurred during scraping: boom" ++ "</pre>" : String) = "Successfully scraped content from http://x:<br><pre>An unexpected error occurred during scraping: boom</pre>" from by decide,
    show ("http://x" : String) ≠ "" from by decide]

/-! ## Claim C5: scrape-command parsing -/

/-- C5 (amended): the command test is `user_input.lower().startswith
("scrape ")` on the UNtrimmed input, with a literal space.  For every such
input: empty remaining URL (after strip) yields the "Please provide a URL
to scrape." message and no fetch; a non-empty URL triggers exactly one
fetch attempt for that URL. -/
theorem C5_scrape_parsing (extract : String → Except String String)
    (env : FetchEnv) (sentTok : String → List String) (clock : Clock)
    (t : ℚ) (s : SysState) (input : String)
    (hcmd : strStartsWith (strLower input) "scrape " = true) :
    (pyStrip (strDrop input 7) = "" →
      generate_response extract env sentTok clock t s input
        = ⟨.ok "Please provide a URL to scrape.", [], s⟩)
    ∧ (pyStrip (strDrop input 7) ≠ "" →
      (generate_response extract env sentTok clock t s input).fetched
        = [pyStrip (strDrop input 7)]) := by
  constructor
  · intro hurl
    simp only [generate_response, hcmd, ite_true, if_pos hurl]
  · intro hurl
    simp only [generate_response, hcmd, ite_true, if_neg hurl]
    rcases hout : (rate_limited_get_url_content extract env
        (pyStrip (strDrop input 7)) t s).out with e | scraped
    · simp [hout]
    · simp only [hout]
      split
      · rfl
      · rfl

/-- Witness for C5: the bare command yields the please-provide message and
no fetch; a command with a URL fetches exactly that URL. -/
theorem C5_scrape_parsing_witness :
    generate_response extract0 env0 sT0 clock0 0 initState "scrape "
      = ⟨.ok "Please provide a URL to scrape.", [], initState⟩
    ∧ (generate_response extract0 env0 sT0 clock0 0 initState
        "scrape http://e").fetched = ["http://e"] := by
  constructor
  · exact (C5_scrape_parsing extract0 env0 sT0 clock0 0 initState "scrape "
      (by decide)).1 (by decide)
  · have h := (C5_scrape_parsing extract0 env0 sT0 clock0 0 initState
      "scrape http://e" (by decide)).2 (by decide)
    rw [h]
    decide

/-- Counterexample to C5 as stated: the input `" scrape http://example.com"`
(one leading space) has a trimmed, lowercased form starting with
"scrape " — yet the router does not treat it as a scrape command: it
performs no fetch and falls through to the matcher/fallback path. -/
theorem C5_counterexample :
    strStartsWith (strLower (pyStrip " scrape http://example.com")) "scrape " = true
    ∧ generate_response extract0 env0 sT0 clock0 0 initState
        " scrape http://example.com"
      = ⟨.ok "I'm not sure how to respond to that.", [], initState⟩ := by
  refine ⟨by decide, ?_⟩
  have hm := match_none_of_no_vocab clock0 " scrape http://example.com" (by decide)
  simp [generate_response, hm, sT0,
    show strStartsWith (strLower " scrape http://example.com") "scrape " = false
      from by decide]

/-! ## Claim C2: one response per input, and the rate-limit exception -/

/-- C2 (amended): `generate_response` produces exactly one string for every
input — except precisely when the input is a scrape command with a
non-empty URL and the window quota is already exhausted, in which case the
`RateLimitException` raised by the `ratelimit` decorator escapes
`generate_response` uncaught. -/
theorem C2_single_response (extract : String → Except String String)
    (env : FetchEnv) (sentTok : String → List String) (clock : Clock)
    (t : ℚ) (s : SysState) (input : String) :
    ((generate_response extract env sentTok clock t s input).out
        = Except.error ())
    ↔ (strStartsWith (strLower input) "scrape " = true
       ∧ pyStrip (strDrop input 7) ≠ ""
       ∧ (decoratorStep s.dec t).1 = true) := by
  by_cases hcmd : strStartsWith (strLower input) "scrape " = true
  · by_cases hurl : pyStrip (strDrop input 7) = ""
    · simp only [generate_response, hcmd, ite_true, if_pos hurl]
      simp [hurl]
    · by_cases hrej : (decoratorStep s.dec t).1 = true
      · simp only [generate_response, hcmd, ite_true, if_neg hurl,
          rate_limited_get_url_content, hrej]
        simp [hcmd, hurl, hrej]
      · have hrej2 : (decoratorStep s.dec t).1 = false := by
          simpa using hrej
        simp only [generate_response, hcmd, ite_true, if_neg hurl,
          rate_limited_get_url_content, hrej2, Bool.false_eq_true, ite_false]
        constructor
        · intro h
          split at h
          · exact absurd h (by simp)
          · exact absurd h (by simp)
        · rintro ⟨-, -, h⟩
          exact h.elim
  · have hok : ∃ r, (generate_response extract env sentTok clock t s input).out
        = Except.ok r := by
      simp only [generate_response, hcmd]
      rcases hm : custom_semantic_match clock input with _ | m
      · simp only [Bool.false_eq_true, ite_false, hm]
        rcases hs : sentTok input with _ | ⟨sent, rest⟩
        · exact ⟨_, rfl⟩
        · exact ⟨_, rfl⟩
      · simp only [Bool.false_eq_true, ite_false, hm]
        by_cases hme : m = ""
        · rcases hs : sentTok input with _ | ⟨sent, rest⟩ <;> simp [hme, hs]
        · simp [hme]
    rcases hok with ⟨r, hr⟩
    rw [hr]
    simp [hcmd]

/-- Witness for C2 (amended): a concrete over-quota scrape call escapes as
an exception, by the right-to-left direction. -/
theorem C2_single_response_witness :
    (generate_response extract0 env0 sT0 clock0 5 ⟨⟨0, 10⟩, 0⟩
        "scrape http://x").out = Except.error () := by
  exact (C2_single_response extract0 env0 sT0 clock0 5 ⟨⟨0, 10⟩, 0⟩
    "scrape http://x").mpr
    ⟨by decide, by decide, by norm_num [decoratorStep]⟩

/-- Counterexample to C2 as stated: on the 11th rapid scrape command within
one window, `generate_response` does not return a string — the
`RateLimitException` escapes. -/
theorem C2_counterexample :
    (generate_response extract0 env0 sT0 clock0 9 ⟨⟨0, 10⟩, 9⟩
        "scrape http://example.com").out = Except.error () := by
  simp only [generate_response,
    show strStartsWith (strLower "scrape http://example.com") "scrape " = true
      from by decide,
    ite_true,
    if_neg (show ¬(pyStrip (strDrop "scrape http://example.com" 7) = "")
      from by decide),
    rate_limited_get_url_content,
    show (decoratorStep (⟨0, 10⟩ : DecoratorState) 9).1 = true
      from by norm_num [decoratorStep]]

/-! ## Claim C1: the rate limiter -/

/-- C1 (amended): the entry point delays only for the 1-unit minimum
spacing — a call that completes does so at least 1 time-unit after the
recorded previous request time, and records its own completion time; the
quota is a FIXED 60-unit window anchored at the last reset: a call
arriving inside an unexpired window with 10 calls already counted raises
`RateLimitException` (it fails rather than being delayed), and a call
whose effective in-window count is below 10 completes normally. -/
theorem C1_rate_limiter (extract : String → Except String String)
    (env : FetchEnv) (url : String) (t : ℚ) (s : SysState) :
    (∀ txt, (rate_limited_get_url_content extract env url t s).out = .ok txt →
      1 ≤ (rate_limited_get_url_content extract env url t s).finish - s.lastReq
      ∧ (rate_limited_get_url_content extract env url t s).st.lastReq
          = (rate_limited_get_url_content extract env url t s).finish)
    ∧ (t - s.dec.lastReset < 60 → 10 ≤ s.dec.numCalls →
        (rate_limited_get_url_content extract env url t s).out = .error ())
    ∧ ((if 60 ≤ t - s.dec.lastReset then 0 else s.dec.numCalls) < 10 →
        (rate_limited_get_url_content extract env url t s).out
          = .ok (get_url_content_body extract env)) := by
  refine ⟨?_, ?_, ?_⟩
  · intro txt h
    by_cases hrej : (decoratorStep s.dec t).1 = true
    · simp [rate_limited_get_url_content, hrej] at h
    · have hrej2 : (decoratorStep s.dec t).1 = false := by simpa using hrej
      simp only [rate_limited_get_url_content, hrej2, Bool.false_eq_true, ite_false]
      refine ⟨?_, trivial⟩
      rw [spacingStep]
      split <;> linarith
  · intro hlt hq
    have hrej : (decoratorStep s.dec t).1 = true := by
      simp only [decoratorStep, if_neg (not_le.mpr (by linarith : t - s.dec.lastReset < 60))]
      simp
      omega
    simp [rate_limited_get_url_content, hrej]
  · intro hq
    have hok : (decoratorStep s.dec t).1 = false := by
      by_cases hres : 60 ≤ t - s.dec.lastReset
      · simp only [decoratorStep, if_pos hres]
        simp
      · rw [if_neg hres] at hq
        simp only [decoratorStep, if_neg hres]
        simp
        omega
    simp [rate_limited_get_url_content, hok]

/-- Witness for C1 (amended): a first call in a fresh window completes
normally (here: with the network error converted to its display string). -/
theorem C1_rate_limiter_witness :
    (rate_limited_get_url_content extract0 env0 "http://e" 5 initState).out
      = .ok "Error accessing URL: connection refused" := by
  have h := (C1_rate_limiter extract0 env0 "http://e" 5 initState).2.2
    (by norm_num [initState])
  rw [h]
  decide

/-- Counterexample to C1 as stated: (a) eleven rapid calls — arrivals
0,1,…,10, each as soon as the previous completes — do NOT all complete:
the 11th raises `RateLimitException` instead of being delayed; (b) the
quota is not a rolling window: with 10 calls late in the first fixed
window and 10 at the start of the next, the 60-unit window [50, 110)
contains 20 completions, more than K = 10. -/
theorem C1_counterexample :
    ((runCalls extract0 env0 "u" [0, 1, 2, 3, 4, 5, 6, 7, 8, 9, 10] initState).map
        fun r => r.1.isOk)
      = [true, true, true, true, true, true, true, true, true, true, false]
    ∧ (((runCalls extract0 env0 "u"
          [50, 50, 51, 52, 53, 54, 55, 56, 57, 58, 60, 60, 61, 62, 63, 64, 65, 66, 67, 68]
          initState).filterMap fun r => if r.1.isOk then some r.2 else none).filter
        fun ft => decide ((50:ℚ) ≤ ft) && decide (ft < 110)).length = 20 := by
  constructor <;>
    norm_num [runCalls, rate_limited_get_url_content, decoratorStep, spacingStep,
      initState, extract0, env0, get_url_content_body, Except.isOk, Except.toBool,
      List.filterMap, List.filter]

/-! ## Claim C6: the strict threshold -/

/-- C6: the acceptance threshold is strictly exclusive.  A query is
represented by its similarity row against the knowledge vectors (queries
enter the decision stage of `custom_semantic_match` only through that
row): a maximum score of exactly 0.6 is rejected (no match), and any
score above 0.6 resolves the arg-max entry's answer. -/
theorem C6_threshold_strict (clock : Clock) (sims : List ℝ) :
    (sims.getD (argmaxIdx sims) 0 = 0.6 → threshold_decide clock sims = none)
    ∧ (sims.getD (argmaxIdx sims) 0 > 0.6 →
        threshold_decide clock sims
          = some (resolveAnswer clock
              (ADVANCED_KNOWLEDGE.getD (argmaxIdx sims) defaultEntry).answer)) := by
  constructor
  · intro h
    simp only [threshold_decide, h]
    norm_num
  · intro h
    simp only [threshold_decide, if_pos h]

/-- Witness for C6 at the boundary scores 0.6 (rejected) and 0.7
(accepted, resolving entry 0's answer). -/
theorem C6_threshold_strict_witness :
    threshold_decide clock0 [(0.6 : ℝ)] = none
    ∧ threshold_decide clock0 [(0.7 : ℝ)]
        = some "Hello there! How can I help you today?" := by
  constructor
  · exact (C6_threshold_strict clock0 [(0.6 : ℝ)]).1 rfl
  · have ha : argmaxIdx [(0.7 : ℝ)] = 0 := rfl
    have h := (C6_threshold_strict clock0 [(0.7 : ℝ)]).2
      (by rw [ha]; norm_num)
    rw [h, ha]
    rfl

/-! ## Claim C7: queries sharing no vocabulary term -/

/-- C7: for every query whose analyzer tokens (after `preprocess`) share
no term with the fitted vocabulary — including text that normalizes to
nothing — every similarity is 0 and the matcher returns no match rather
than failing. -/
theorem C7_no_shared_terms (clock : Clock) (input : String)
    (h : ∀ tk ∈ tfidfTokenize (preprocess input), tk ∉ vocabList) :
    (∀ x ∈ similarities input, x = 0)
    ∧ custom_semantic_match clock input = none :=
  ⟨similarities_zero input h, match_none_of_no_vocab clock input h⟩

/-- Witness for C7 at a concrete out-of-vocabulary query. -/
theorem C7_no_shared_terms_witness :
    custom_semantic_match clock0 "zebra xylophone" = none :=
  (C7_no_shared_terms clock0 "zebra xylophone" (by decide)).2

/-! ## Claim C3: exact-question self-similarity -/

/-- The query vector of the exact question text "what is your name":
`preprocess` removes the stop words "what", "is", "your", so only "name"
survives. -/
lemma queryVec_name_eq (t : String) : queryVecRaw "what is your name" t
    = if t = "name" then idf "name" else 0 := by
  rw [queryVecRaw]
  rw [show tfidfTokenize (preprocess "what is your name") = ["name"] from by decide]
  by_cases h : t = "name"
  · subst h
    rw [if_pos (by decide : "name" ∈ vocabList), if_pos rfl]
    norm_num
  · by_cases hv : t ∈ vocabList
    · rw [if_pos hv, if_neg h]
      have hc : List.count t ["name"] = 0 := by
        simp [List.count_eq_zero, h]
      rw [hc]
      norm_num
    · rw [if_neg hv, if_neg h]

/-- C3 evaluated at the failing input: "what is your name" is the question
of knowledge entry 2, yet the cosine similarity of that exact text against
the entry's own document vector is strictly below 1, because the fit
corpus was vectorized raw (keeping "what", "is", "your") while the query
passes through `preprocess` (dropping them). -/
theorem C3_exact_question_fails :
    knowledge_questions.getD 2 "" = "what is your name"
    ∧ cosineSim (queryVecRaw "what is your name")
        (docVecRaw (docsTokens.getD 2 [])) < 1 := by
  refine ⟨by decide, ?_⟩
  have hd2 : docsTokens.getD 2 [] = ["what", "is", "your", "name"] := by decide
  rw [hd2]
  set q := queryVecRaw "what is your name" with hqdef
  set d := docVecRaw ["what", "is", "your", "name"] with hddef
  have hnamepos := idf_pos "name"
  have hq : ∀ t, q t = if t = "name" then idf "name" else 0 := queryVec_name_eq
  have hdotqq : dotV q q = (idf "name")^2 := by
    rw [dotV_finset]
    rw [Finset.sum_congr rfl (fun t _ =>
      show q t * q t = if t = "name" then (idf "name")^2 else 0 by
        rw [hq t]
        rcases eq_or_ne t "name" with h | h
        · simp [h, sq]
        · simp [h])]
    rw [Finset.sum_ite_eq' vocabList.toFinset "name" (fun _ => (idf "name")^2)]
    rw [if_pos (by rw [List.mem_toFinset]; decide : "name" ∈ vocabList.toFinset)]
  have hnq : normV q = idf "name" := by
    rw [normV, hdotqq, Real.sqrt_sq hnamepos.le]
  have hdname : d "name" = idf "name" := by
    show (List.count "name" ["what", "is", "your", "name"] : ℝ) * idf "name" = idf "name"
    rw [show List.count "name" ["what", "is", "your", "name"] = 1 from by decide]
    norm_num
  have hdotqd : dotV q d = (idf "name")^2 := by
    rw [dotV_finset]
    rw [Finset.sum_congr rfl (fun t _ =>
      show q t * d t = if t = "name" then idf "name" * d t else 0 by
        rw [hq t]
        by_cases h : t = "name" <;> simp [h])]
    rw [Finset.sum_ite_eq' vocabList.toFinset "name" (fun t => idf "name" * d t)]
    rw [if_pos (by rw [List.mem_toFinset]; decide : "name" ∈ vocabList.toFinset), hdname]
    ring
  have hdotdd : dotV d d
      = (idf "what")^2 + (idf "is")^2 + (idf "your")^2 + (idf "name")^2 := by
    rw [dotV_finset]
    have hsub : ({"what", "is", "your", "name"} : Finset String) ⊆ vocabList.toFinset := by
      decide
    rw [← Finset.sum_subset hsub (fun t _ ht => by
      have htl : t ∉ (["what", "is", "your", "name"] : List String) := by
        simpa using ht
      show d t * d t = 0
      have hd : d t = (List.count t ["what", "is", "your", "name"] : ℝ) * idf t := rfl
      rw [hd, List.count_eq_zero.mpr htl]
      norm_num)]
    rw [show ({"what", "is", "your", "name"} : Finset String)
        = insert "what" (insert "is" (insert "your" ({"name"} : Finset String))) from rfl]
    rw [Finset.sum_insert (by decide), Finset.sum_insert (by decide),
        Finset.sum_insert (by decide), Finset.sum_singleton]
    have e1 : d "what" = idf "what" := by
      show (List.count "what" ["what", "is", "your", "name"] : ℝ) * idf "what" = _
      rw [show List.count "what" ["what", "is", "your", "name"] = 1 from by decide]
      norm_num
    have e2 : d "is" = idf "is" := by
      show (List.count "is" ["what", "is", "your", "name"] : ℝ) * idf "is" = _
      rw [show List.count "is" ["what", "is", "your", "name"] = 1 from by decide]
      norm_num
    have e3 : d "your" = idf "your" := by
      show (List.count "your" ["what", "is", "your", "name"] : ℝ) * idf "your" = _
      rw [show List.count "your" ["what", "is", "your", "name"] = 1 from by decide]
      norm_num
    rw [e1, e2, e3, hdname]
    ring
  have hS : (idf "name")^2 < dotV d d := by
    rw [hdotdd]
    have h1 := idf_pos "what"
    have h2 := idf_pos "is"
    have h3 := idf_pos "your"
    nlinarith
  have hndpos : 0 < normV d := by
    rw [normV, Real.sqrt_pos]
    nlinarith [sq_nonneg (idf "name"), hnamepos]
  have hlt : idf "name" < normV d := by
    rw [normV]
    exact (Real.lt_sqrt hnamepos.le).mpr hS
  rw [cosineSim_eq_div q d (by rw [hnq]; exact hnamepos.ne') hndpos.ne']
  rw [hdotqd, hnq]
  rw [div_lt_one (by positivity)]
  nlinarith

end XDbit
